import Mathlib

/-
Verification of the `ConstantBlackScholesProcess` component
(src/constantblackscholesprocess.hpp).

The repository ships only the class declaration: the four `Handle<Quote>`
members, the constructor taking the four handles and a discretization
strategy defaulting to `EulerDiscretization`, and the declarations of the
overridden methods `x0`, `drift`, `diffusion`, `apply`.  The method bodies,
the `Handle` mechanism and the base-class `evolve` live outside `src/`, so
they are modelled from the specification (marked below), while the data
layout follows the header.
-/

namespace QuantLib

noncomputable section

/-- Identifier of the shared indirection cell behind a handle.  Copies of a
handle share the same link, so sharing is modelled by equality of link
identifiers. -/
abbrev LinkId : Type := Nat

/-- Modelled from the spec: `Handle<Quote>` (the reactive scalar parameter,
spec §4.1).  The handle class itself is external library code; it is modelled
as a wrapper around the identifier of the shared link whose current target is
kept in an external environment. -/
structure Handle where
  link : LinkId

/-- The external binding state: the real value (quote) each link currently
points to, with `none` meaning the link is empty, i.e. the parameter is
unbound. -/
structure Env where
  quotes : LinkId → Option ℝ

/-- Modelled from the spec: the error raised when a parameter is read while
unbound (spec §7). -/
inductive UnboundParameterError : Type where
  | unbound
deriving DecidableEq

/-- Modelled from the spec: `read() -> Real` of the reactive scalar parameter
(spec §4.1): delegates to the currently bound source and fails with
`UnboundParameterError` when no source is bound. -/
def Handle.read (h : Handle) (e : Env) : Except UnboundParameterError ℝ :=
  match e.quotes h.link with
  | some v => Except.ok v
  | none => Except.error UnboundParameterError.unbound

/-- Modelled from the spec: relinking a handle (spec §4.1): the shared link is
made to point at a new value, so every holder of the same link observes the
new value on its next read while other links are untouched. -/
def Env.rebind (e : Env) (h : Handle) (v : ℝ) : Env :=
  ⟨fun k => if k = h.link then some v else e.quotes k⟩

/-- Modelled from the spec: the `discretization` strategy interface (inner
class of `StochasticProcess1D`, external to the repository): it turns the
drift value, the diffusion value, the step `dt` and the random draw `dw` into
the increment handed to `apply` (spec §6). -/
structure Discretization where
  increment : ℝ → ℝ → ℝ → ℝ → ℝ

/-- Modelled from the spec: the default explicit Euler–Maruyama scheme
(`EulerDiscretization`): increment = drift·dt + diffusion·sqrt(dt)·dw
(spec §6). -/
def EulerDiscretization : Discretization :=
  ⟨fun mu sigma dt dw => mu * dt + sigma * Real.sqrt dt * dw⟩

/-- The `ConstantBlackScholesProcess` data, following the header: the four
`Handle<Quote>` members `x0_`, `riskFreeRate_`, `dividendYield_`,
`blackVolatility_` (lines 71–73) plus the discretization strategy taken by
the constructor (lines 39–46, default `EulerDiscretization`). -/
structure ConstantBlackScholesProcess where
  x0_ : Handle
  riskFreeRate_ : Handle
  dividendYield_ : Handle
  blackVolatility_ : Handle
  disc : Discretization

/-- Modelled from the spec: `x0()` returns `initialLevel.read()` (spec §4.2);
the header declares `Real x0() const override` without a body. -/
def ConstantBlackScholesProcess.x0 (p : ConstantBlackScholesProcess) (e : Env) :
    Except UnboundParameterError ℝ :=
  Handle.read p.x0_ e

/-- Modelled from the spec: `drift(t, x)` returns
`riskFreeRate.read() - dividendYield.read() - volatility.read()^2 / 2`,
with `t` and `x` accepted for interface conformance but unused (spec §4.2);
the header declares `Real drift(Time t, Real x) const override` without a
body.  A failed read propagates as the result. -/
def ConstantBlackScholesProcess.drift (p : ConstantBlackScholesProcess) (e : Env)
    (_t : ℝ) (_x : ℝ) : Except UnboundParameterError ℝ :=
  match Handle.read p.riskFreeRate_ e, Handle.read p.dividendYield_ e,
      Handle.read p.blackVolatility_ e with
  | Except.ok r, Except.ok q, Except.ok sigma => Except.ok (r - q - sigma ^ 2 / 2)
  | Except.error err, _, _ => Except.error err
  | _, Except.error err, _ => Except.error err
  | _, _, Except.error err => Except.error err

/-- Modelled from the spec: `diffusion(t, x)` returns `volatility.read()`,
independent of `t` and `x` (spec §4.2); the header declares
`Real diffusion(Time t, Real x) const override` without a body. -/
def ConstantBlackScholesProcess.diffusion (p : ConstantBlackScholesProcess) (e : Env)
    (_t : ℝ) (_x : ℝ) : Except UnboundParameterError ℝ :=
  Handle.read p.blackVolatility_ e

/-- Modelled from the spec: `apply(x0, dx)` returns `x0 * exp(dx)`
(spec §4.2); the header declares `Real apply(Real x0, Real dx) const
override` without a body. -/
def ConstantBlackScholesProcess.apply (_p : ConstantBlackScholesProcess)
    (x0 dx : ℝ) : ℝ :=
  x0 * Real.exp dx

/-- Modelled from the spec: the inherited `evolve(t0, x0, dt, dw)` of the base
single-dimensional process (not overridden): it computes
`apply(x0, increment(drift(t0, x0), diffusion(t0, x0), dt, dw))` through the
stored discretization strategy (spec §4.2, §6); a failed parameter read
propagates as the result. -/
def ConstantBlackScholesProcess.evolve (p : ConstantBlackScholesProcess) (e : Env)
    (t0 x dt dw : ℝ) : Except UnboundParameterError ℝ :=
  match p.drift e t0 x, p.diffusion e t0 x with
  | Except.ok mu, Except.ok sigma =>
      Except.ok (p.apply x (p.disc.increment mu sigma dt dw))
  | Except.error err, _ => Except.error err
  | _, Except.error err => Except.error err

/-- Concrete process used to instantiate theorems with hypotheses: the four
handles point at links 0, 1, 2, 3 and the strategy is the default Euler one. -/
def procA : ConstantBlackScholesProcess :=
  ⟨⟨0⟩, ⟨1⟩, ⟨2⟩, ⟨3⟩, EulerDiscretization⟩

/-- Concrete environment binding link 0 to 100 (initial level), link 1 to
0.05 (risk-free rate), link 2 to 0.02 (dividend yield) and link 3 to 0.2
(volatility), the scenario of spec §8. -/
def envA : Env :=
  ⟨fun k =>
    if k = 0 then some 100
    else if k = 1 then some (5 / 100)
    else if k = 2 then some (2 / 100)
    else if k = 3 then some (2 / 10)
    else none⟩

/-- Concrete environment with every link unbound. -/
def envNone : Env := ⟨fun _ => none⟩

/-- Helper: when the three coefficient handles are bound, `evolve` succeeds
and returns the level combined multiplicatively with the strategy's
increment. -/
theorem evolve_ok_of_bound (p : ConstantBlackScholesProcess) (e : Env) {r q sigma : ℝ}
    (hr : e.quotes p.riskFreeRate_.link = some r)
    (hq : e.quotes p.dividendYield_.link = some q)
    (hs : e.quotes p.blackVolatility_.link = some sigma)
    (t0 x dt dw : ℝ) :
    p.evolve e t0 x dt dw =
      Except.ok (x * Real.exp (p.disc.increment (r - q - sigma ^ 2 / 2) sigma dt dw)) := by
  simp [ConstantBlackScholesProcess.evolve, ConstantBlackScholesProcess.drift,
    ConstantBlackScholesProcess.diffusion, ConstantBlackScholesProcess.apply,
    Handle.read, hr, hq, hs]

/-- C1: for every level S and every increment dx, `apply(S, dx)` returns
S · exp(dx) — the increment combines multiplicatively in log-space, not by
addition — and in particular `apply(S, 0) = S` for every S. -/
theorem apply_eq_mul_exp (p : ConstantBlackScholesProcess) (S dx : ℝ) :
    p.apply S dx = S * Real.exp dx ∧ p.apply S 0 = S := by
  refine ⟨rfl, ?_⟩
  simp [ConstantBlackScholesProcess.apply]

/-- C2: when the risk-free rate, dividend yield and volatility handles are
bound to r, q, sigma, `drift(t, x)` returns r − q − sigma²/2; the result is
the same at every (t, x) pair while those bindings are unchanged. -/
theorem drift_eq_constant (p : ConstantBlackScholesProcess) (e : Env) (r q sigma : ℝ)
    (hr : e.quotes p.riskFreeRate_.link = some r)
    (hq : e.quotes p.dividendYield_.link = some q)
    (hs : e.quotes p.blackVolatility_.link = some sigma)
    (t x : ℝ) :
    p.drift e t x = Except.ok (r - q - sigma ^ 2 / 2) ∧
    ∀ t' x' : ℝ, p.drift e t' x' = p.drift e t x := by
  refine ⟨?_, fun t' x' => rfl⟩
  simp [ConstantBlackScholesProcess.drift, Handle.read, hr, hq, hs]

/-- C2 witness: at the concrete bindings r = 0.05, q = 0.02, sigma = 0.2, the
drift is 0.05 − 0.02 − 0.2²/2. -/
theorem drift_eq_constant_witness :
    ConstantBlackScholesProcess.drift procA envA 0 100 =
      Except.ok ((5 : ℝ) / 100 - 2 / 100 - (2 / 10) ^ 2 / 2) :=
  (drift_eq_constant procA envA (5 / 100) (2 / 100) (2 / 10) rfl rfl rfl 0 100).1

/-- C3: when the volatility handle is bound to sigma, `diffusion(t, x)`
returns sigma, independently of t and x; and the value is read fresh on every
call: after rebinding the volatility to sigma2, the very next `diffusion`
call at the same (t, x) returns sigma2. -/
theorem diffusion_eq_and_no_caching (p : ConstantBlackScholesProcess) (e : Env) (sigma : ℝ)
    (hs : e.quotes p.blackVolatility_.link = some sigma)
    (t x : ℝ) :
    p.diffusion e t x = Except.ok sigma ∧
    (∀ t' x' : ℝ, p.diffusion e t' x' = p.diffusion e t x) ∧
    (∀ sigma2 : ℝ,
      p.diffusion (e.rebind p.blackVolatility_ sigma2) t x = Except.ok sigma2) := by
  refine ⟨?_, fun t' x' => rfl, fun sigma2 => ?_⟩
  · simp [ConstantBlackScholesProcess.diffusion, Handle.read, hs]
  · simp [ConstantBlackScholesProcess.diffusion, Handle.read, Env.rebind]

/-- C3 witness: with sigma bound to 0.2, diffusion returns 0.2, and after
rebinding to 0.3 the next call returns 0.3. -/
theorem diffusion_eq_and_no_caching_witness :
    ConstantBlackScholesProcess.diffusion procA envA 0 100 = Except.ok ((2 : ℝ) / 10) ∧
    ConstantBlackScholesProcess.diffusion procA
      (envA.rebind procA.blackVolatility_ (3 / 10)) 0 100 = Except.ok ((3 : ℝ) / 10) :=
  ⟨(diffusion_eq_and_no_caching procA envA (2 / 10) rfl 0 100).1,
   (diffusion_eq_and_no_caching procA envA (2 / 10) rfl 0 100).2.2 (3 / 10)⟩

/-- C5: when the initial-level handle is bound to v, `x0()` returns exactly v;
it takes no time or state argument, and every call in any environment that
leaves the initial-level binding unchanged returns the same value. -/
theorem x0_reads_initial_level (p : ConstantBlackScholesProcess) (e : Env) (v : ℝ)
    (hv : e.quotes p.x0_.link = some v) :
    p.x0 e = Except.ok v ∧
    ∀ e' : Env, e'.quotes p.x0_.link = e.quotes p.x0_.link → p.x0 e' = Except.ok v := by
  constructor
  · simp [ConstantBlackScholesProcess.x0, Handle.read, hv]
  · intro e' he
    simp [ConstantBlackScholesProcess.x0, Handle.read, he, hv]

/-- C5 witness: with the initial level bound to 100, `x0()` returns 100, also
when recomputed in an environment with the same initial-level binding. -/
theorem x0_reads_initial_level_witness :
    ConstantBlackScholesProcess.x0 procA envA = Except.ok (100 : ℝ) ∧
    ConstantBlackScholesProcess.x0 procA (envA.rebind procA.blackVolatility_ (3 / 10)) =
      Except.ok (100 : ℝ) :=
  ⟨(x0_reads_initial_level procA envA 100 rfl).1,
   (x0_reads_initial_level procA envA 100 rfl).2
     (envA.rebind procA.blackVolatility_ (3 / 10)) rfl⟩

/-- C9: increments compose additively through `apply`: applying a to S and
then b gives the same level as applying a + b at once. -/
theorem apply_increments_add (p : ConstantBlackScholesProcess) (S a b : ℝ) :
    p.apply (p.apply S a) b = p.apply S (a + b) := by
  simp [ConstantBlackScholesProcess.apply, Real.exp_add]
  ring

/-- C4: with the default Euler–Maruyama discretization and bound
(r, q, sigma), `evolve(t0, x, dt, dw)` equals
`apply(x, drift(t0, x)·dt + diffusion(t0, x)·sqrt(dt)·dw)`, i.e.
x · exp((r − q − sigma²/2)·dt + sigma·sqrt(dt)·dw). -/
theorem evolve_euler_closed_form (p : ConstantBlackScholesProcess) (e : Env) (r q sigma : ℝ)
    (hd : p.disc = EulerDiscretization)
    (hr : e.quotes p.riskFreeRate_.link = some r)
    (hq : e.quotes p.dividendYield_.link = some q)
    (hs : e.quotes p.blackVolatility_.link = some sigma)
    (t0 x dt dw : ℝ) :
    p.evolve e t0 x dt dw =
      Except.ok (p.apply x ((r - q - sigma ^ 2 / 2) * dt + sigma * Real.sqrt dt * dw)) ∧
    p.evolve e t0 x dt dw =
      Except.ok (x * Real.exp ((r - q - sigma ^ 2 / 2) * dt + sigma * Real.sqrt dt * dw)) := by
  have h := evolve_ok_of_bound p e hr hq hs t0 x dt dw
  rw [hd] at h
  exact ⟨h, h⟩

/-- C4 witness: the scenario x = 100, q = 0.02, r = 0.05, sigma = 0.2,
dt = 1, dw = 0 makes the increment 0.01 and the result 100 · e^0.01. -/
theorem evolve_euler_closed_form_witness :
    ConstantBlackScholesProcess.evolve procA envA 0 100 1 0 =
      Except.ok ((100 : ℝ) * Real.exp (1 / 100)) := by
  have h := (evolve_euler_closed_form procA envA (5 / 100) (2 / 100) (2 / 10)
    rfl rfl rfl rfl 0 100 1 0).2
  rw [h]
  norm_num

/-- C6: reading an unbound parameter through `x0`, `drift` or `diffusion`
returns `UnboundParameterError` to the caller, and once the parameters a
method reads are bound, the method never returns this error. -/
theorem unbound_parameter_error (p : ConstantBlackScholesProcess) (e : Env) (t x : ℝ) :
    (e.quotes p.x0_.link = none →
      p.x0 e = Except.error UnboundParameterError.unbound) ∧
    ((∃ v, e.quotes p.x0_.link = some v) → ∃ v, p.x0 e = Except.ok v) ∧
    ((e.quotes p.riskFreeRate_.link = none ∨ e.quotes p.dividendYield_.link = none ∨
        e.quotes p.blackVolatility_.link = none) →
      p.drift e t x = Except.error UnboundParameterError.unbound) ∧
    ((∃ r, e.quotes p.riskFreeRate_.link = some r) →
      (∃ q, e.quotes p.dividendYield_.link = some q) →
      (∃ s, e.quotes p.blackVolatility_.link = some s) →
      ∃ v, p.drift e t x = Except.ok v) ∧
    (e.quotes p.blackVolatility_.link = none →
      p.diffusion e t x = Except.error UnboundParameterError.unbound) ∧
    ((∃ s, e.quotes p.blackVolatility_.link = some s) →
      ∃ v, p.diffusion e t x = Except.ok v) := by
  refine ⟨fun h0 => ?_, fun ⟨v, hv⟩ => ?_, fun h => ?_, ?_, fun hs => ?_, fun ⟨s, hs⟩ => ?_⟩
  · simp [ConstantBlackScholesProcess.x0, Handle.read, h0]
  · exact ⟨v, by simp [ConstantBlackScholesProcess.x0, Handle.read, hv]⟩
  · rcases h with h | h | h
    · rcases hq : e.quotes p.dividendYield_.link with _ | q <;>
        rcases hs : e.quotes p.blackVolatility_.link with _ | s <;>
        simp [ConstantBlackScholesProcess.drift, Handle.read, h, hq, hs]
    · rcases hr : e.quotes p.riskFreeRate_.link with _ | r <;>
        rcases hs : e.quotes p.blackVolatility_.link with _ | s <;>
        simp [ConstantBlackScholesProcess.drift, Handle.read, h, hr, hs]
    · rcases hr : e.quotes p.riskFreeRate_.link with _ | r <;>
        rcases hq : e.quotes p.dividendYield_.link with _ | q <;>
        simp [ConstantBlackScholesProcess.drift, Handle.read, h, hr, hq]
  · rintro ⟨r, hr⟩ ⟨q, hq⟩ ⟨s, hs⟩
    exact ⟨r - q - s ^ 2 / 2,
      by simp [ConstantBlackScholesProcess.drift, Handle.read, hr, hq, hs]⟩
  · simp [ConstantBlackScholesProcess.diffusion, Handle.read, hs]
  · exact ⟨s, by simp [ConstantBlackScholesProcess.diffusion, Handle.read, hs]⟩

/-- C6 witness: with all parameters unbound, `x0` and `drift` return
`UnboundParameterError`; with all parameters bound, they return values. -/
theorem unbound_parameter_error_witness :
    ConstantBlackScholesProcess.x0 procA envNone =
      Except.error UnboundParameterError.unbound ∧
    ConstantBlackScholesProcess.drift procA envNone 0 100 =
      Except.error UnboundParameterError.unbound ∧
    (∃ v, ConstantBlackScholesProcess.x0 procA envA = Except.ok v) ∧
    (∃ v, ConstantBlackScholesProcess.drift procA envA 0 100 = Except.ok v) :=
  ⟨(unbound_parameter_error procA envNone 0 100).1 rfl,
   (unbound_parameter_error procA envNone 0 100).2.2.1 (Or.inl rfl),
   (unbound_parameter_error procA envA 0 100).2.1 ⟨100, rfl⟩,
   (unbound_parameter_error procA envA 0 100).2.2.2.1
     ⟨5 / 100, rfl⟩ ⟨2 / 100, rfl⟩ ⟨2 / 10, rfl⟩⟩

/-- C7: rebinding any one of the four parameter handles makes its next read
return the new value, while a read through any handle on a different link —
in particular the other three parameters — is unchanged; the process object
itself is untouched, since rebinding acts only on the environment. -/
theorem rebind_isolation (p : ConstantBlackScholesProcess) (e : Env) (l : Handle) (v : ℝ)
    (_hl : l = p.x0_ ∨ l = p.riskFreeRate_ ∨ l = p.dividendYield_ ∨
      l = p.blackVolatility_) :
    Handle.read l (e.rebind l v) = Except.ok v ∧
    ∀ h : Handle, h.link ≠ l.link → Handle.read h (e.rebind l v) = Handle.read h e := by
  constructor
  · simp [Handle.read, Env.rebind]
  · intro h hne
    simp [Handle.read, Env.rebind, hne]

/-- C7 witness: rebinding the volatility handle makes its read return the new
value while the reads of the other three handles are unchanged. -/
theorem rebind_isolation_witness :
    Handle.read procA.blackVolatility_
      (envA.rebind procA.blackVolatility_ (3 / 10)) = Except.ok ((3 : ℝ) / 10) ∧
    Handle.read procA.x0_ (envA.rebind procA.blackVolatility_ (3 / 10)) =
      Handle.read procA.x0_ envA ∧
    Handle.read procA.riskFreeRate_ (envA.rebind procA.blackVolatility_ (3 / 10)) =
      Handle.read procA.riskFreeRate_ envA ∧
    Handle.read procA.dividendYield_ (envA.rebind procA.blackVolatility_ (3 / 10)) =
      Handle.read procA.dividendYield_ envA :=
  ⟨(rebind_isolation procA envA procA.blackVolatility_ (3 / 10)
      (Or.inr (Or.inr (Or.inr rfl)))).1,
   (rebind_isolation procA envA procA.blackVolatility_ (3 / 10)
      (Or.inr (Or.inr (Or.inr rfl)))).2 procA.x0_ (by decide),
   (rebind_isolation procA envA procA.blackVolatility_ (3 / 10)
      (Or.inr (Or.inr (Or.inr rfl)))).2 procA.riskFreeRate_ (by decide),
   (rebind_isolation procA envA procA.blackVolatility_ (3 / 10)
      (Or.inr (Or.inr (Or.inr rfl)))).2 procA.dividendYield_ (by decide)⟩

/-- C8: `apply` preserves positivity — for every S > 0 and every increment dx,
`apply(S, dx)` is strictly positive — so a path started at a positive level
stays strictly positive after every successful `evolve` step. -/
theorem apply_preserves_positivity (p : ConstantBlackScholesProcess) (S : ℝ) (hS : 0 < S) :
    (∀ dx : ℝ, 0 < p.apply S dx) ∧
    (∀ (e : Env) (t0 dt dw y : ℝ), p.evolve e t0 S dt dw = Except.ok y → 0 < y) := by
  constructor
  · intro dx
    exact mul_pos hS (Real.exp_pos dx)
  · intro e t0 dt dw y hy
    unfold ConstantBlackScholesProcess.evolve at hy
    rcases hdr : p.drift e t0 S with err | mu <;> rw [hdr] at hy <;>
      rcases hdf : p.diffusion e t0 S with err2 | sigma <;> rw [hdf] at hy <;>
      simp at hy
    rw [← hy]
    exact mul_pos hS (Real.exp_pos _)

/-- C8 witness: at the positive level 100, `apply` returns a positive level,
and the concrete Euler step of spec §8 lands on a positive level. -/
theorem apply_preserves_positivity_witness :
    0 < ConstantBlackScholesProcess.apply procA 100 (-5) :=
  (apply_preserves_positivity procA 100 (by norm_num)).1 (-5)

/-- C10: with the default Euler–Maruyama discretization, bound volatility
sigma > 0, level x > 0 and step dt > 0, `evolve` is strictly increasing in
the random draw: dw1 < dw2 gives a strictly smaller result at dw1. -/
theorem evolve_strict_mono_in_draw (p : ConstantBlackScholesProcess) (e : Env)
    (r q sigma : ℝ)
    (hd : p.disc = EulerDiscretization)
    (hr : e.quotes p.riskFreeRate_.link = some r)
    (hq : e.quotes p.dividendYield_.link = some q)
    (hs : e.quotes p.blackVolatility_.link = some sigma)
    (hsig : 0 < sigma) (t0 x dt : ℝ) (hx : 0 < x) (hdt : 0 < dt)
    (dw1 dw2 : ℝ) (hw : dw1 < dw2) :
    ∃ y1 y2 : ℝ, p.evolve e t0 x dt dw1 = Except.ok y1 ∧
      p.evolve e t0 x dt dw2 = Except.ok y2 ∧ y1 < y2 := by
  refine ⟨_, _, evolve_ok_of_bound p e hr hq hs t0 x dt dw1,
    evolve_ok_of_bound p e hr hq hs t0 x dt dw2, ?_⟩
  rw [hd]
  have hc : 0 < sigma * Real.sqrt dt := mul_pos hsig (Real.sqrt_pos.mpr hdt)
  refine mul_lt_mul_of_pos_left (Real.exp_lt_exp.mpr ?_) hx
  show (r - q - sigma ^ 2 / 2) * dt + sigma * Real.sqrt dt * dw1 <
    (r - q - sigma ^ 2 / 2) * dt + sigma * Real.sqrt dt * dw2
  exact add_lt_add_left (mul_lt_mul_of_pos_left hw hc) _

/-- C10 witness: in the concrete Euler scenario with sigma = 0.2, x = 100,
dt = 1, the result at draw 0 is strictly below the result at draw 1. -/
theorem evolve_strict_mono_in_draw_witness :
    ∃ y1 y2 : ℝ, ConstantBlackScholesProcess.evolve procA envA 0 100 1 0 = Except.ok y1 ∧
      ConstantBlackScholesProcess.evolve procA envA 0 100 1 1 = Except.ok y2 ∧ y1 < y2 :=
  evolve_strict_mono_in_draw procA envA (5 / 100) (2 / 100) (2 / 10)
    rfl rfl rfl rfl (by norm_num) 0 100 1 (by norm_num) (by norm_num)
    0 1 (by norm_num)

end

end QuantLib
